import Mathlib

/-!
Shallow embedding of the transformers-pipeline notebook (src/pipeline.ipynb).

The notebook chains six NLP stages: fill-mask, text generation, sentiment
analysis, summarization, external-process question generation (ollama),
and question answering.  Every model call is delegated to an opaque
external service; here each such service is a parameter (an oracle
function) that either returns a result or raises a Python exception.
The orchestration code of the notebook is translated literally below.
-/

/-- Python exceptions that the notebook's code can observe.
`calledProcessError` is `subprocess.CalledProcessError` (raised by
`subprocess.run(..., check=True)` on a non-zero exit status);
`fileNotFoundError` models a failure to launch the executable at all;
`indexError` is raised by an out-of-bounds list subscript. -/
inductive PyExn where
  | calledProcessError (returncode : Int) (output : String) (stderr : String)
  | fileNotFoundError (msg : String)
  | indexError
  | other (msg : String)
deriving Repr, DecidableEq

/-- The value returned by `subprocess.run` (`subprocess.CompletedProcess`)
with `capture_output=True, text=True`. -/
structure CompletedProcess where
  returncode : Int
  stdout : String
  stderr : String
deriving Repr, DecidableEq

/-- One entry of the list returned by the fill-mask pipeline:
the notebook reads only the `sequence` key. -/
structure FillResult where
  sequence : String
  score : Rat
deriving Repr, DecidableEq

/-- One entry of the list returned by the text-generation pipeline. -/
structure GenResult where
  generated_text : String
deriving Repr, DecidableEq

/-- One entry of the list returned by the sentiment-analysis pipeline. -/
structure SentResult where
  label : String
  score : Rat
deriving Repr, DecidableEq

/-- One entry of the list returned by the summarization pipeline. -/
structure SummaryResult where
  summary_text : String
deriving Repr, DecidableEq

/-- The dict returned by the question-answering pipeline. -/
structure QAResult where
  answer : String
  score : Rat
  start_pos : Nat
  end_pos : Nat
deriving Repr, DecidableEq

/-- Characters stripped by Python `str.strip()`. -/
def isPyWhitespace (c : Char) : Bool :=
  c = ' ' || c = '\t' || c = '\n' || c = '\r' || c = '\x0b' || c = '\x0c'

/-- Python `s.strip()`: remove leading and trailing whitespace. -/
def pyStrip (s : String) : String :=
  String.mk (((s.data.dropWhile isPyWhitespace).reverse.dropWhile isPyWhitespace).reverse)

/-- Whether `pat` occurs at the head of `s` (character lists). -/
def charsStartWith : List Char → List Char → Bool
  | [], _ => true
  | _ :: _, [] => false
  | p :: ps, c :: cs => p = c && charsStartWith ps cs

/-- Whether `pat` occurs anywhere inside `s` (character lists). -/
def charsContain : List Char → List Char → Bool
  | s, [] =>
    match s with
    | _ => true
  | [], _ :: _ => false
  | c :: rest, p :: ps =>
    charsStartWith (p :: ps) (c :: rest) || charsContain rest (p :: ps)

/-- Python substring test `pat in s`. -/
def strContains (s pat : String) : Bool :=
  charsContain s.data pat.data

/-- Decidable equality on `Except`, used to evaluate concrete runs. -/
instance {ε α : Type} [DecidableEq ε] [DecidableEq α] : DecidableEq (Except ε α) := fun a b =>
  match a, b with
  | Except.ok x, Except.ok y =>
      if h : x = y then isTrue (congrArg Except.ok h)
      else isFalse (fun hc => h (Except.ok.inj hc))
  | Except.error e, Except.error f =>
      if h : e = f then isTrue (congrArg Except.error h)
      else isFalse (fun hc => h (Except.error.inj hc))
  | Except.ok _, Except.error _ => isFalse (fun hc => Except.noConfusion hc)
  | Except.error _, Except.ok _ => isFalse (fun hc => Except.noConfusion hc)

/-- Python list subscript `l[i]`: raises `IndexError` when out of bounds. -/
def pyIndex {α : Type} (l : List α) (i : Nat) : Except PyExn α :=
  match l.get? i with
  | some x => Except.ok x
  | none => Except.error PyExn.indexError

/-- The mask placeholder marker used by the notebook. -/
def mask_token : String := "[MASK]"

/-- The notebook's fixed input sentence to the fill-mask stage. -/
def masked_sentence : String := "Renewable energy reduces [MASK]."

/-- The oracles standing for the external model services and the external
process.  `mask_filler` takes the sentence and `top_k`; `text_generator`
takes the seed text, `max_length`, `num_return_sequences` and `truncation`;
`summarizer` takes the text, `max_length`, `min_length` and `do_sample`;
`ollama_launcher` maps the text written to the process's standard input to
either a completed process or a launch failure; `qa_pipeline` takes the
question and the context. -/
structure Models where
  mask_filler : String → Nat → Except PyExn (List FillResult)
  text_generator : String → Nat → Nat → Bool → Except PyExn (List GenResult)
  sentiment_analyzer : String → Except PyExn (List SentResult)
  summarizer : String → Nat → Nat → Bool → Except PyExn (List SummaryResult)
  ollama_launcher : String → Except PyExn CompletedProcess
  qa_pipeline : String → String → Except PyExn QAResult

/-- The fixed command line of the external process:
`["ollama", "run", "llama3.2"]`. -/
def ollama_command : List String := ["ollama", "run", "llama3.2"]

/-- The fallback question substituted when the external process exits
with a non-zero status. -/
def fallback_question : String := "What are the key points mentioned in the summary?"

/-- The sentinel summary substituted when summarization fails. -/
def no_summary_sentinel : String := "No summary available."

/-- The instruction text built by `generate_question_with_instruction`: the
template line "Generate a simple question based on the following summary:",
a blank line, the summary, a blank line, and "Question:". -/
def instruction_for (summary_text : String) : String :=
  "Generate a simple question based on the following summary:\n\n" ++ summary_text ++ "\n\nQuestion:"

/-- Python subprocess.run with input=inp, text=True, capture_output=True, check=True:
the launch either fails outright (the launcher's own error is re-raised) or
yields a completed process; with `check=True` a non-zero `returncode` raises
`CalledProcessError` carrying the captured output and error streams. -/
def subprocess_run_check (launcher : String → Except PyExn CompletedProcess)
    (inp : String) : Except PyExn CompletedProcess :=
  match launcher inp with
  | Except.error e => Except.error e
  | Except.ok r =>
      if r.returncode = 0 then Except.ok r
      else Except.error (PyExn.calledProcessError r.returncode r.stdout r.stderr)

/-- The outcome of `generate_question_with_instruction`: the returned value
(or the escaping exception) together with the log of external-process
launches, each recorded as the command line and the text written to the
process's standard input. -/
structure QuestionGenOutcome where
  result : Except PyExn String
  launches : List (List String × String)
deriving Repr, DecidableEq

/-- The notebook's `generate_question_with_instruction(summary_text)`:
builds the instruction, runs the ollama process once with the instruction
on standard input, returns `result.stdout.strip()`; on
`subprocess.CalledProcessError` returns the fallback question; any other
exception escapes. -/
def generate_question_with_instruction
    (launcher : String → Except PyExn CompletedProcess)
    (summary_text : String) : QuestionGenOutcome :=
  let instruction := instruction_for summary_text
  match subprocess_run_check launcher instruction with
  | Except.ok result =>
      ⟨Except.ok (pyStrip result.stdout), [(ollama_command, instruction)]⟩
  | Except.error (PyExn.calledProcessError _ _ _) =>
      ⟨Except.ok fallback_question, [(ollama_command, instruction)]⟩
  | Except.error e =>
      ⟨Except.error e, [(ollama_command, instruction)]⟩

/-- Step 1: `fill_results = mask_filler(sentence, top_k=1)`;
`unmasked_sentence = fill_results[0]['sequence']`. -/
def fill_mask_stage (filler : String → Nat → Except PyExn (List FillResult))
    (sentence : String) : Except PyExn String := do
  let fill_results ← filler sentence 1
  let r0 ← pyIndex fill_results 0
  pure r0.sequence

/-- Step 2: `generated_texts = text_generator(text, max_length=100,
num_return_sequences=1, truncation=True)`;
`generated_text = generated_texts[0]['generated_text']`. -/
def text_generation_stage (gen : String → Nat → Nat → Bool → Except PyExn (List GenResult))
    (text : String) : Except PyExn String := do
  let generated_texts ← gen text 100 1 true
  let g0 ← pyIndex generated_texts 0
  pure g0.generated_text

/-- Step 3: `sentiment_results = sentiment_analyzer(text)`;
`sentiment = sentiment_results[0]['label']`;
`confidence = sentiment_results[0]['score']`. -/
def sentiment_stage (sa : String → Except PyExn (List SentResult))
    (text : String) : Except PyExn (String × Rat) := do
  let sentiment_results ← sa text
  let s0 ← pyIndex sentiment_results 0
  pure (s0.label, s0.score)

/-- Step 4: `try: summary = summarizer(text, max_length=100, min_length=10,
do_sample=False); summary_text = summary[0]['summary_text']
except Exception: summary_text = "No summary available."`
The bare `except Exception` catches every exception in the block, so the
step always yields a string. -/
def summarization_stage (sm : String → Nat → Nat → Bool → Except PyExn (List SummaryResult))
    (text : String) : String :=
  match (do
      let summary ← sm text 100 10 false
      let sm0 ← pyIndex summary 0
      pure sm0.summary_text : Except PyExn String) with
  | Except.ok s => s
  | Except.error _ => no_summary_sentinel

/-- Step 6: `qa_result = qa_pipeline(question=question, context=context)`;
`answer = qa_result['answer']`. -/
def question_answering_stage (qa : String → String → Except PyExn QAResult)
    (question context : String) : Except PyExn String := do
  let qa_result ← qa question context
  pure qa_result.answer

/-- Every intermediate value of one run of the chain, together with the
argument actually passed at each call site (`fill_input`, `gen_input`,
`sentiment_input`, `summarizer_input`, `qg_input`, `qa_question`,
`qa_context`) and the log of external-process launches. -/
structure Trace where
  fill_input : String
  unmasked_sentence : String
  gen_input : String
  generated_text : String
  sentiment_input : String
  sentiment : String
  confidence : Rat
  summarizer_input : String
  summary_text : String
  qg_input : String
  question : String
  qa_question : String
  qa_context : String
  answer : String
  ollama_launches : List (List String × String)
deriving Repr, DecidableEq

/-- The whole chain of the notebook, Step 1 through Step 6, run over the
given oracles.  Exceptions not locally handled by a stage abort the chain
(`Except.error`). -/
def run_pipeline (m : Models) : Except PyExn Trace := do
  let unmasked_sentence ← fill_mask_stage m.mask_filler masked_sentence
  let generated_text ← text_generation_stage m.text_generator unmasked_sentence
  let sc ← sentiment_stage m.sentiment_analyzer generated_text
  let summary_text := summarization_stage m.summarizer generated_text
  let qg := generate_question_with_instruction m.ollama_launcher summary_text
  let question ← qg.result
  let context := summary_text
  let answer ← question_answering_stage m.qa_pipeline question context
  pure { fill_input := masked_sentence
         unmasked_sentence := unmasked_sentence
         gen_input := unmasked_sentence
         generated_text := generated_text
         sentiment_input := generated_text
         sentiment := sc.1
         confidence := sc.2
         summarizer_input := generated_text
         summary_text := summary_text
         qg_input := summary_text
         question := question
         qa_question := question
         qa_context := context
         answer := answer
         ollama_launches := qg.launches }

/-- Modelled from the spec's words (section 6, "trailing whitespace
trimmed"): remove trailing whitespace only, leaving the rest of the text
unchanged.  Used to compare the spec's description against the code's
`str.strip()`. -/
def spec_trailing_trimmed (s : String) : String :=
  String.mk ((s.data.reverse.dropWhile isPyWhitespace).reverse)

/-- The same oracles with every list-returning service cut down to its
first element.  `run_pipeline` is invariant under this truncation, which
expresses that only index 0 of each result list is ever consumed. -/
def truncateModels (m : Models) : Models where
  mask_filler := fun s k => Except.map (fun l => List.take 1 l) (m.mask_filler s k)
  text_generator := fun s a b c => Except.map (fun l => List.take 1 l) (m.text_generator s a b c)
  sentiment_analyzer := fun s => Except.map (fun l => List.take 1 l) (m.sentiment_analyzer s)
  summarizer := fun s a b c => Except.map (fun l => List.take 1 l) (m.summarizer s a b c)
  ollama_launcher := m.ollama_launcher
  qa_pipeline := m.qa_pipeline

/-- Deterministic stand-ins for all six services, all succeeding. -/
def demo_models : Models where
  mask_filler := fun _ _ => Except.ok [⟨"renewable energy reduces costs.", 1⟩]
  text_generator := fun _ _ _ _ =>
    Except.ok [⟨"renewable energy reduces costs. The policy shifted."⟩]
  sentiment_analyzer := fun _ => Except.ok [⟨"POSITIVE", 1⟩]
  summarizer := fun _ _ _ _ =>
    Except.ok [⟨"The policy shifted because of renewable costs."⟩]
  ollama_launcher := fun _ => Except.ok ⟨0, "What caused the policy shift?\n", ""⟩
  qa_pipeline := fun _ _ => Except.ok ⟨"renewable costs", 1, 31, 46⟩

/-- The trace produced by `run_pipeline demo_models`. -/
def demo_trace : Trace where
  fill_input := masked_sentence
  unmasked_sentence := "renewable energy reduces costs."
  gen_input := "renewable energy reduces costs."
  generated_text := "renewable energy reduces costs. The policy shifted."
  sentiment_input := "renewable energy reduces costs. The policy shifted."
  sentiment := "POSITIVE"
  confidence := 1
  summarizer_input := "renewable energy reduces costs. The policy shifted."
  summary_text := "The policy shifted because of renewable costs."
  qg_input := "The policy shifted because of renewable costs."
  question := "What caused the policy shift?"
  qa_question := "What caused the policy shift?"
  qa_context := "The policy shifted because of renewable costs."
  answer := "renewable costs"
  ollama_launches :=
    [(ollama_command, instruction_for "The policy shifted because of renewable costs.")]

/-- A launcher whose process always exits with status 1. -/
def nonzero_exit_launcher : String → Except PyExn CompletedProcess :=
  fun _ => Except.ok ⟨1, "", "model not found"⟩

/-- A launcher whose process exits 0 but emits surrounding whitespace. -/
def ws_launcher : String → Except PyExn CompletedProcess :=
  fun _ => Except.ok ⟨0, " What caused the policy shift?", ""⟩

/-- A launcher that fails to start the executable at all. -/
def missing_exe_launcher : String → Except PyExn CompletedProcess :=
  fun _ => Except.error (PyExn.fileNotFoundError "ollama: command not found")

/-- A mask-filler stand-in that echoes its input sentence unchanged as the
top candidate. -/
def echo_filler : String → Nat → Except PyExn (List FillResult) :=
  fun s _ => Except.ok [⟨s, 1⟩]

/-- Stand-ins identical to `demo_models` except that summarization raises. -/
def failing_summarizer_models : Models :=
  { demo_models with summarizer := fun _ _ _ _ => Except.error (PyExn.other "CUDA out of memory") }

/-- Stand-ins identical to `demo_models` except that mask-filling raises. -/
def failing_mask_models : Models :=
  { demo_models with mask_filler := fun _ _ => Except.error (PyExn.other "mask boom") }

/-- Stand-ins identical to `demo_models` except that generation raises. -/
def failing_gen_models : Models :=
  { demo_models with text_generator := fun _ _ _ _ => Except.error (PyExn.other "gen boom") }

/-- Stand-ins identical to `demo_models` except that sentiment raises. -/
def failing_sentiment_models : Models :=
  { demo_models with sentiment_analyzer := fun _ => Except.error (PyExn.other "sentiment boom") }

/-- Stand-ins identical to `demo_models` except that question answering raises. -/
def failing_qa_models : Models :=
  { demo_models with qa_pipeline := fun _ _ => Except.error (PyExn.other "qa boom") }

/-- Stand-ins identical to `demo_models` except that the external process
exits with a non-zero status. -/
def nonzero_exit_models : Models :=
  { demo_models with ollama_launcher := nonzero_exit_launcher }


/-- Inverting a successful `Except` bind. -/
theorem except_bind_ok {ε α β : Type} {x : Except ε α} {f : α → Except ε β} {b : β}
    (h : x >>= f = Except.ok b) : ∃ a, x = Except.ok a ∧ f a = Except.ok b := by
  cases x with
  | ok a => exact ⟨a, rfl, h⟩
  | error e => exact Except.noConfusion h

/-- Everything a successful run of the chain determines: each stage's
result, and the verbatim wiring of every hand-off. -/
theorem run_pipeline_ok_inv (m : Models) (t : Trace) (h : run_pipeline m = Except.ok t) :
    fill_mask_stage m.mask_filler masked_sentence = Except.ok t.unmasked_sentence ∧
    text_generation_stage m.text_generator t.unmasked_sentence = Except.ok t.generated_text ∧
    sentiment_stage m.sentiment_analyzer t.generated_text = Except.ok (t.sentiment, t.confidence) ∧
    summarization_stage m.summarizer t.generated_text = t.summary_text ∧
    (generate_question_with_instruction m.ollama_launcher t.summary_text).result
      = Except.ok t.question ∧
    question_answering_stage m.qa_pipeline t.question t.summary_text = Except.ok t.answer ∧
    t.fill_input = masked_sentence ∧
    t.gen_input = t.unmasked_sentence ∧
    t.sentiment_input = t.generated_text ∧
    t.summarizer_input = t.generated_text ∧
    t.qg_input = t.summary_text ∧
    t.qa_question = t.question ∧
    t.qa_context = t.summary_text ∧
    t.ollama_launches = (generate_question_with_instruction m.ollama_launcher t.summary_text).launches := by
  unfold run_pipeline at h
  obtain ⟨u, hu, h⟩ := except_bind_ok h
  obtain ⟨g, hg, h⟩ := except_bind_ok h
  obtain ⟨sc, hsc, h⟩ := except_bind_ok h
  obtain ⟨q, hq, h⟩ := except_bind_ok h
  obtain ⟨a, ha, h⟩ := except_bind_ok h
  have ht := Except.ok.inj h
  subst ht
  refine ⟨hu, hg, ?_, rfl, hq, ha, rfl, rfl, rfl, rfl, rfl, rfl, rfl, rfl⟩
  simpa using hsc

/-- All branches of `generate_question_with_instruction` record the same
single launch: the fixed ollama command with the instruction on stdin. -/
theorem question_gen_launches (launcher : String → Except PyExn CompletedProcess)
    (s : String) :
    (generate_question_with_instruction launcher s).launches
      = [(ollama_command, instruction_for s)] := by
  unfold generate_question_with_instruction
  cases hs : subprocess_run_check launcher (instruction_for s) with
  | ok r => simp [hs]
  | error e => cases e <;> simp [hs]

/-- C5: for every summary string s, the instruction written to the external
process's standard input by generate_question_with_instruction is exactly
the template "Generate a simple question based on the following summary:",
two newlines, s, two newlines, "Question:", and nothing else is written:
the single recorded launch carries exactly this text as its stdin. -/
theorem C5_instruction_text (launcher : String → Except PyExn CompletedProcess)
    (s : String) :
    (generate_question_with_instruction launcher s).launches
      = [(ollama_command,
          "Generate a simple question based on the following summary:\n\n" ++ s
            ++ "\n\nQuestion:")] :=
  question_gen_launches launcher s

/-- C7: every call to generate_question_with_instruction launches the
external process exactly once — never zero times before returning and never
a second time, whatever the outcome (success, non-zero exit, or launch
failure); the launch log always has length one. -/
theorem C7_single_launch (launcher : String → Except PyExn CompletedProcess)
    (s : String) :
    ((generate_question_with_instruction launcher s).launches).length = 1 := by
  rw [question_gen_launches]
  rfl

/-- C9: the handler catches only the non-zero-exit process error; when the
launch itself fails with an exception that is not a CalledProcessError, the
fallback is not substituted and the exception escapes
generate_question_with_instruction. -/
theorem C9_launch_failure_uncaught (launcher : String → Except PyExn CompletedProcess)
    (s : String) (e : PyExn)
    (h : launcher (instruction_for s) = Except.error e)
    (hne : ∀ rc o st, e ≠ PyExn.calledProcessError rc o st) :
    (generate_question_with_instruction launcher s).result = Except.error e := by
  have hs : subprocess_run_check launcher (instruction_for s) = Except.error e := by
    unfold subprocess_run_check
    rw [h]
  unfold generate_question_with_instruction
  dsimp only
  rw [hs]
  cases e with
  | calledProcessError rc o st => exact absurd rfl (hne rc o st)
  | fileNotFoundError msg => rfl
  | indexError => rfl
  | other msg => rfl

/-- Witness for C9: a missing executable raises FileNotFoundError, which
escapes the question-generation stage instead of being replaced by the
fallback question. -/
theorem C9_witness :
    (generate_question_with_instruction missing_exe_launcher "a summary").result
      = Except.error (PyExn.fileNotFoundError "ollama: command not found") :=
  C9_launch_failure_uncaught missing_exe_launcher "a summary"
    (PyExn.fileNotFoundError "ollama: command not found") rfl
    (fun _ _ _ hc => PyExn.noConfusion hc)

/-- C4 counterexample: a process that exits 0 and writes
" What caused the policy shift?" (leading space) to standard output.  The
claim says only trailing whitespace is trimmed and the rest of the output
is unchanged, but the code applies Python str.strip(), which also removes
the leading whitespace, so the returned question differs from the
trailing-trimmed stdout. -/
theorem C4_counterexample :
    (generate_question_with_instruction ws_launcher "a summary").result
        ≠ Except.ok (spec_trailing_trimmed " What caused the policy shift?") ∧
    (generate_question_with_instruction ws_launcher "a summary").result
        = Except.ok "What caused the policy shift?" := by
  constructor
  · decide
  · decide

/-- C4 amended: when the external process exits with zero status, the stage
returns the captured standard output trimmed of BOTH leading and trailing
whitespace (Python str.strip()); output without surrounding whitespace is
returned exactly. -/
theorem C4_zero_exit_returns_stripped_stdout
    (launcher : String → Except PyExn CompletedProcess) (s : String)
    (pr : CompletedProcess)
    (h : launcher (instruction_for s) = Except.ok pr)
    (hz : pr.returncode = 0) :
    (generate_question_with_instruction launcher s).result = Except.ok (pyStrip pr.stdout) := by
  have hs : subprocess_run_check launcher (instruction_for s) = Except.ok pr := by
    unfold subprocess_run_check
    rw [h]
    simp [hz]
  unfold generate_question_with_instruction
  dsimp only
  rw [hs]

/-- Witness for C4 amended: a stand-in that writes
"What caused the policy shift?" (plus a newline) to standard output and
exits 0 makes the stage return exactly "What caused the policy shift?". -/
theorem C4_witness :
    (generate_question_with_instruction
        (fun _ => Except.ok ⟨0, "What caused the policy shift?\n", ""⟩) "a summary").result
      = Except.ok "What caused the policy shift?" := by
  have h := C4_zero_exit_returns_stripped_stdout
    (fun _ => Except.ok ⟨0, "What caused the policy shift?\n", ""⟩) "a summary"
    ⟨0, "What caused the policy shift?\n", ""⟩ rfl rfl
  exact h.trans (by decide)

/-- C1: when the external process exits with a non-zero status, the stage
catches the CalledProcessError and returns exactly the fixed fallback
question, launching the process only that once (no retry); and in any
successful chain run whose summary is the given string and whose launcher
is this one, the question handed to question answering is that fallback. -/
theorem C1_nonzero_exit_fallback
    (launcher : String → Except PyExn CompletedProcess) (s : String)
    (pr : CompletedProcess)
    (h : launcher (instruction_for s) = Except.ok pr)
    (hnz : pr.returncode ≠ 0) :
    (generate_question_with_instruction launcher s).result = Except.ok fallback_question ∧
    (generate_question_with_instruction launcher s).launches
      = [(ollama_command, instruction_for s)] ∧
    (∀ (m : Models) (t : Trace), m.ollama_launcher = launcher →
       run_pipeline m = Except.ok t → t.summary_text = s →
       t.question = fallback_question ∧ t.qa_question = fallback_question) := by
  have hs : subprocess_run_check launcher (instruction_for s)
      = Except.error (PyExn.calledProcessError pr.returncode pr.stdout pr.stderr) := by
    unfold subprocess_run_check
    rw [h]
    simp [hnz]
  have hres : (generate_question_with_instruction launcher s).result
      = Except.ok fallback_question := by
    unfold generate_question_with_instruction
    dsimp only
    rw [hs]
  refine ⟨hres, question_gen_launches launcher s, ?_⟩
  intro m t hm hrun hsum
  obtain ⟨-, -, -, -, hq, -, -, -, -, -, -, hqa, -, -⟩ := run_pipeline_ok_inv m t hrun
  rw [hm, hsum, hres] at hq
  have : fallback_question = t.question := Except.ok.inj hq
  exact ⟨this.symm, hqa.trans this.symm⟩

/-- Witness for C1: with a launcher whose process exits 1, the stage
returns the fallback question after a single launch, and the full chain
run with the demo stand-ins carries that fallback as the question handed
to question answering. -/
theorem C1_witness :
    (generate_question_with_instruction nonzero_exit_launcher
        "The policy shifted because of renewable costs.").result
      = Except.ok fallback_question ∧
    (generate_question_with_instruction nonzero_exit_launcher
        "The policy shifted because of renewable costs.").launches
      = [(ollama_command,
          instruction_for "The policy shifted because of renewable costs.")] := by
  have h := C1_nonzero_exit_fallback nonzero_exit_launcher
    "The policy shifted because of renewable costs." ⟨1, "", "model not found"⟩ rfl (by decide)
  exact ⟨h.1, h.2.1⟩

/-- A successful mask-fill call makes Step 1 return the head candidate's
sequence. -/
theorem fill_mask_stage_ok (filler : String → Nat → Except PyExn (List FillResult))
    (sentence : String) (r : FillResult) (rs : List FillResult)
    (h : filler sentence 1 = Except.ok (r :: rs)) :
    fill_mask_stage filler sentence = Except.ok r.sequence := by
  unfold fill_mask_stage
  rw [h]
  rfl

/-- A failing mask-fill call aborts Step 1 with the same exception. -/
theorem fill_mask_stage_err (filler : String → Nat → Except PyExn (List FillResult))
    (sentence : String) (e : PyExn) (h : filler sentence 1 = Except.error e) :
    fill_mask_stage filler sentence = Except.error e := by
  unfold fill_mask_stage
  rw [h]
  rfl

/-- A successful generation call makes Step 2 return the head result. -/
theorem text_generation_stage_ok (gen : String → Nat → Nat → Bool → Except PyExn (List GenResult))
    (text : String) (r : GenResult) (rs : List GenResult)
    (h : gen text 100 1 true = Except.ok (r :: rs)) :
    text_generation_stage gen text = Except.ok r.generated_text := by
  unfold text_generation_stage
  rw [h]
  rfl

/-- A failing generation call aborts Step 2 with the same exception. -/
theorem text_generation_stage_err (gen : String → Nat → Nat → Bool → Except PyExn (List GenResult))
    (text : String) (e : PyExn) (h : gen text 100 1 true = Except.error e) :
    text_generation_stage gen text = Except.error e := by
  unfold text_generation_stage
  rw [h]
  rfl

/-- A successful sentiment call makes Step 3 return the head label/score. -/
theorem sentiment_stage_ok (sa : String → Except PyExn (List SentResult))
    (text : String) (r : SentResult) (rs : List SentResult)
    (h : sa text = Except.ok (r :: rs)) :
    sentiment_stage sa text = Except.ok (r.label, r.score) := by
  unfold sentiment_stage
  rw [h]
  rfl

/-- A failing sentiment call aborts Step 3 with the same exception. -/
theorem sentiment_stage_err (sa : String → Except PyExn (List SentResult))
    (text : String) (e : PyExn) (h : sa text = Except.error e) :
    sentiment_stage sa text = Except.error e := by
  unfold sentiment_stage
  rw [h]
  rfl

/-- A successful summarization call makes Step 4 yield the head summary. -/
theorem summarization_stage_ok (sm : String → Nat → Nat → Bool → Except PyExn (List SummaryResult))
    (text : String) (r : SummaryResult) (rs : List SummaryResult)
    (h : sm text 100 10 false = Except.ok (r :: rs)) :
    summarization_stage sm text = r.summary_text := by
  unfold summarization_stage
  rw [h]
  rfl

/-- A failing summarization call is caught: Step 4 yields the sentinel. -/
theorem summarization_stage_err (sm : String → Nat → Nat → Bool → Except PyExn (List SummaryResult))
    (text : String) (e : PyExn) (h : sm text 100 10 false = Except.error e) :
    summarization_stage sm text = no_summary_sentinel := by
  unfold summarization_stage
  rw [h]
  rfl

/-- A failing question-answering call aborts Step 6 with the same exception. -/
theorem question_answering_stage_err (qa : String → String → Except PyExn QAResult)
    (question context : String) (e : PyExn) (h : qa question context = Except.error e) :
    question_answering_stage qa question context = Except.error e := by
  unfold question_answering_stage
  rw [h]
  rfl

/-- A zero-exit process run makes the question-generation stage return the
stripped stdout after a single launch. -/
theorem question_gen_ok_of_zero (launcher : String → Except PyExn CompletedProcess)
    (s : String) (pr : CompletedProcess)
    (h : launcher (instruction_for s) = Except.ok pr) (hz : pr.returncode = 0) :
    generate_question_with_instruction launcher s
      = ⟨Except.ok (pyStrip pr.stdout), [(ollama_command, instruction_for s)]⟩ := by
  have hs : subprocess_run_check launcher (instruction_for s) = Except.ok pr := by
    unfold subprocess_run_check
    rw [h]
    simp [hz]
  unfold generate_question_with_instruction
  dsimp only
  rw [hs]

/-- C2: if the summarization call raises any exception, the exception is
caught, summary_text becomes exactly "No summary available.", the chain
continues to completion, and that sentinel is passed unchanged as the
context of the question-answering stage. -/
theorem C2_summarization_failure_sentinel (m : Models)
    (fr : FillResult) (frs : List FillResult)
    (gr : GenResult) (grs : List GenResult)
    (sr : SentResult) (srs : List SentResult)
    (e : PyExn) (pr : CompletedProcess) (qa : QAResult)
    (h1 : m.mask_filler masked_sentence 1 = Except.ok (fr :: frs))
    (h2 : m.text_generator fr.sequence 100 1 true = Except.ok (gr :: grs))
    (h3 : m.sentiment_analyzer gr.generated_text = Except.ok (sr :: srs))
    (h4 : m.summarizer gr.generated_text 100 10 false = Except.error e)
    (h5 : m.ollama_launcher (instruction_for no_summary_sentinel) = Except.ok pr)
    (hz : pr.returncode = 0)
    (h6 : m.qa_pipeline (pyStrip pr.stdout) no_summary_sentinel = Except.ok qa) :
    summarization_stage m.summarizer gr.generated_text = no_summary_sentinel ∧
    run_pipeline m = Except.ok
      { fill_input := masked_sentence
        unmasked_sentence := fr.sequence
        gen_input := fr.sequence
        generated_text := gr.generated_text
        sentiment_input := gr.generated_text
        sentiment := sr.label
        confidence := sr.score
        summarizer_input := gr.generated_text
        summary_text := no_summary_sentinel
        qg_input := no_summary_sentinel
        question := pyStrip pr.stdout
        qa_question := pyStrip pr.stdout
        qa_context := no_summary_sentinel
        answer := qa.answer
        ollama_launches := [(ollama_command, instruction_for no_summary_sentinel)] } := by
  have e1 := fill_mask_stage_ok m.mask_filler masked_sentence fr frs h1
  have e2 := text_generation_stage_ok m.text_generator fr.sequence gr grs h2
  have e3 := sentiment_stage_ok m.sentiment_analyzer gr.generated_text sr srs h3
  have e4 := summarization_stage_err m.summarizer gr.generated_text e h4
  have e5 := question_gen_ok_of_zero m.ollama_launcher no_summary_sentinel pr h5 hz
  refine ⟨e4, ?_⟩
  unfold run_pipeline
  rw [e1]
  show (text_generation_stage m.text_generator fr.sequence >>= _) = _
  rw [e2]
  show (sentiment_stage m.sentiment_analyzer gr.generated_text >>= _) = _
  rw [e3]
  show ((generate_question_with_instruction m.ollama_launcher
      (summarization_stage m.summarizer gr.generated_text)).result >>= _) = _
  rw [e4, e5]
  show (question_answering_stage m.qa_pipeline (pyStrip pr.stdout) no_summary_sentinel >>= _) = _
  unfold question_answering_stage
  rw [h6]
  rfl

/-- Witness for C2: with the demo stand-ins but a summarizer that raises,
the chain completes with the sentinel as both summary and QA context. -/
theorem C2_witness :
    run_pipeline failing_summarizer_models = Except.ok
      { fill_input := masked_sentence
        unmasked_sentence := "renewable energy reduces costs."
        gen_input := "renewable energy reduces costs."
        generated_text := "renewable energy reduces costs. The policy shifted."
        sentiment_input := "renewable energy reduces costs. The policy shifted."
        sentiment := "POSITIVE"
        confidence := 1
        summarizer_input := "renewable energy reduces costs. The policy shifted."
        summary_text := no_summary_sentinel
        qg_input := no_summary_sentinel
        question := pyStrip "What caused the policy shift?\n"
        qa_question := pyStrip "What caused the policy shift?\n"
        qa_context := no_summary_sentinel
        answer := "renewable costs"
        ollama_launches := [(ollama_command, instruction_for no_summary_sentinel)] } :=
  (C2_summarization_failure_sentinel failing_summarizer_models
    ⟨"renewable energy reduces costs.", 1⟩ []
    ⟨"renewable energy reduces costs. The policy shifted."⟩ []
    ⟨"POSITIVE", 1⟩ []
    (PyExn.other "CUDA out of memory")
    ⟨0, "What caused the policy shift?\n", ""⟩
    ⟨"renewable costs", 1, 31, 46⟩
    rfl rfl rfl rfl rfl rfl rfl).2

/-- C6: exceptions raised by the mask-filling, text-generation,
sentiment-analysis, or question-answering calls are not caught anywhere in
the chain: the run aborts with the very same exception.  (Only
summarization and the external process call have local handling.) -/
theorem C6_unhandled_failures_propagate (m : Models) :
    (∀ e, m.mask_filler masked_sentence 1 = Except.error e →
        run_pipeline m = Except.error e) ∧
    (∀ fr frs e, m.mask_filler masked_sentence 1 = Except.ok (fr :: frs) →
        m.text_generator fr.sequence 100 1 true = Except.error e →
        run_pipeline m = Except.error e) ∧
    (∀ fr frs gr grs e, m.mask_filler masked_sentence 1 = Except.ok (fr :: frs) →
        m.text_generator fr.sequence 100 1 true = Except.ok (gr :: grs) →
        m.sentiment_analyzer gr.generated_text = Except.error e →
        run_pipeline m = Except.error e) ∧
    (∀ fr frs gr grs sr srs q e, m.mask_filler masked_sentence 1 = Except.ok (fr :: frs) →
        m.text_generator fr.sequence 100 1 true = Except.ok (gr :: grs) →
        m.sentiment_analyzer gr.generated_text = Except.ok (sr :: srs) →
        (generate_question_with_instruction m.ollama_launcher
            (summarization_stage m.summarizer gr.generated_text)).result = Except.ok q →
        m.qa_pipeline q (summarization_stage m.summarizer gr.generated_text)
            = Except.error e →
        run_pipeline m = Except.error e) := by
  refine ⟨?_, ?_, ?_, ?_⟩
  · intro e h1
    unfold run_pipeline
    rw [fill_mask_stage_err m.mask_filler masked_sentence e h1]
    rfl
  · intro fr frs e h1 h2
    unfold run_pipeline
    rw [fill_mask_stage_ok m.mask_filler masked_sentence fr frs h1]
    show (text_generation_stage m.text_generator fr.sequence >>= _) = _
    rw [text_generation_stage_err m.text_generator fr.sequence e h2]
    rfl
  · intro fr frs gr grs e h1 h2 h3
    unfold run_pipeline
    rw [fill_mask_stage_ok m.mask_filler masked_sentence fr frs h1]
    show (text_generation_stage m.text_generator fr.sequence >>= _) = _
    rw [text_generation_stage_ok m.text_generator fr.sequence gr grs h2]
    show (sentiment_stage m.sentiment_analyzer gr.generated_text >>= _) = _
    rw [sentiment_stage_err m.sentiment_analyzer gr.generated_text e h3]
    rfl
  · intro fr frs gr grs sr srs q e h1 h2 h3 hq h6
    unfold run_pipeline
    rw [fill_mask_stage_ok m.mask_filler masked_sentence fr frs h1]
    show (text_generation_stage m.text_generator fr.sequence >>= _) = _
    rw [text_generation_stage_ok m.text_generator fr.sequence gr grs h2]
    show (sentiment_stage m.sentiment_analyzer gr.generated_text >>= _) = _
    rw [sentiment_stage_ok m.sentiment_analyzer gr.generated_text sr srs h3]
    show ((generate_question_with_instruction m.ollama_launcher
        (summarization_stage m.summarizer gr.generated_text)).result >>= _) = _
    rw [hq]
    show (question_answering_stage m.qa_pipeline q
        (summarization_stage m.summarizer gr.generated_text) >>= _) = _
    rw [question_answering_stage_err m.qa_pipeline q
        (summarization_stage m.summarizer gr.generated_text) e h6]
    rfl

/-- Witness for C6: each of the four unhandled stages, made to raise on
top of the demo stand-ins, aborts the whole chain with its own exception. -/
theorem C6_witness :
    run_pipeline failing_mask_models = Except.error (PyExn.other "mask boom") ∧
    run_pipeline failing_gen_models = Except.error (PyExn.other "gen boom") ∧
    run_pipeline failing_sentiment_models = Except.error (PyExn.other "sentiment boom") ∧
    run_pipeline failing_qa_models = Except.error (PyExn.other "qa boom") := by
  refine ⟨?_, ?_, ?_, ?_⟩
  · exact (C6_unhandled_failures_propagate failing_mask_models).1
      (PyExn.other "mask boom") rfl
  · exact (C6_unhandled_failures_propagate failing_gen_models).2.1
      ⟨"renewable energy reduces costs.", 1⟩ [] (PyExn.other "gen boom") rfl rfl
  · exact (C6_unhandled_failures_propagate failing_sentiment_models).2.2.1
      ⟨"renewable energy reduces costs.", 1⟩ []
      ⟨"renewable energy reduces costs. The policy shifted."⟩ []
      (PyExn.other "sentiment boom") rfl rfl rfl
  · exact (C6_unhandled_failures_propagate failing_qa_models).2.2.2
      ⟨"renewable energy reduces costs.", 1⟩ []
      ⟨"renewable energy reduces costs. The policy shifted."⟩ []
      ⟨"POSITIVE", 1⟩ []
      (pyStrip "What caused the policy shift?\n") (PyExn.other "qa boom")
      rfl rfl rfl (by decide) rfl

/-- C3 counterexample: a successful run of the demo stand-ins in which the
summarizer's input is the stage-2 generated text, not the stage-3 output
(the sentiment label), refuting the claim that the output of stage 3
becomes the input of stage 4. -/
theorem C3_counterexample :
    ¬ (∀ (m : Models) (t : Trace), run_pipeline m = Except.ok t →
        t.gen_input = t.unmasked_sentence ∧
        t.sentiment_input = t.generated_text ∧
        t.summarizer_input = t.sentiment ∧
        t.qg_input = t.summary_text ∧
        t.qa_question = t.question ∧
        t.qa_context = t.summary_text) := by
  intro h
  have hd := h demo_models demo_trace (by decide)
  exact absurd hd.2.2.1 (by decide)

/-- C3 amended: in every successful run, stage 1's output is stage 2's
input, stage 2's output is stage 3's input AND stage 4's input (stage 3
emits a label/score consumed only for display, not text handed onward),
stage 4's summary is stage 5's input, and stage 5's question together with
the stage-4 summary as context are stage 6's inputs. -/
theorem C3_handoff (m : Models) (t : Trace) (h : run_pipeline m = Except.ok t) :
    t.fill_input = masked_sentence ∧
    t.gen_input = t.unmasked_sentence ∧
    t.sentiment_input = t.generated_text ∧
    t.summarizer_input = t.generated_text ∧
    t.qg_input = t.summary_text ∧
    t.qa_question = t.question ∧
    t.qa_context = t.summary_text := by
  obtain ⟨-, -, -, -, -, -, h7, h8, h9, h10, h11, h12, h13, -⟩ := run_pipeline_ok_inv m t h
  exact ⟨h7, h8, h9, h10, h11, h12, h13⟩

/-- Witness for C3 amended: the hand-off identities hold on the demo run. -/
theorem C3_witness :
    demo_trace.fill_input = masked_sentence ∧
    demo_trace.gen_input = demo_trace.unmasked_sentence ∧
    demo_trace.sentiment_input = demo_trace.generated_text ∧
    demo_trace.summarizer_input = demo_trace.generated_text ∧
    demo_trace.qg_input = demo_trace.summary_text ∧
    demo_trace.qa_question = demo_trace.question ∧
    demo_trace.qa_context = demo_trace.summary_text :=
  C3_handoff demo_models demo_trace (by decide)

/-- C8 counterexample: the orchestration code does not itself remove the
placeholder; a mask-filler stand-in whose top candidate still contains
"[MASK]" (here: one that echoes its input) makes the stage output contain
the marker, refuting the claim as a property of the code. -/
theorem C8_counterexample :
    ¬ (∀ (filler : String → Nat → Except PyExn (List FillResult)) (sentence out : String),
        strContains sentence mask_token = true →
        fill_mask_stage filler sentence = Except.ok out →
        strContains out mask_token = false) := by
  intro h
  have hme := h echo_filler masked_sentence masked_sentence (by decide) (by decide)
  exact absurd hme (by decide)

/-- C8 amended: the stage output is exactly the model's top-1 candidate
sequence, so it omits the placeholder marker exactly when that candidate's
sequence omits it; the code adds no guarantee of its own. -/
theorem C8_mask_output (filler : String → Nat → Except PyExn (List FillResult))
    (sentence : String) (r : FillResult) (rs : List FillResult)
    (h : filler sentence 1 = Except.ok (r :: rs)) :
    fill_mask_stage filler sentence = Except.ok r.sequence ∧
    (∀ out, fill_mask_stage filler sentence = Except.ok out →
      (strContains out mask_token = false ↔ strContains r.sequence mask_token = false)) := by
  have e1 := fill_mask_stage_ok filler sentence r rs h
  refine ⟨e1, ?_⟩
  intro out hout
  cases Except.ok.inj (e1.symm.trans hout)
  exact Iff.rfl

/-- Witness for C8 amended: the demo filler's top candidate has no marker,
and the stage returns it verbatim, marker-free. -/
theorem C8_witness :
    fill_mask_stage demo_models.mask_filler masked_sentence
      = Except.ok "renewable energy reduces costs." ∧
    strContains "renewable energy reduces costs." mask_token = false :=
  ⟨(C8_mask_output demo_models.mask_filler masked_sentence
      ⟨"renewable energy reduces costs.", 1⟩ [] rfl).1, by decide⟩

/-- Subscript 0 only looks at the first element. -/
theorem pyIndex_take_one {α : Type} (l : List α) :
    pyIndex (List.take 1 l) 0 = pyIndex l 0 := by
  cases l <;> rfl

/-- Step 1 only consumes the first element of the returned list. -/
theorem fill_mask_stage_trunc (f : String → Nat → Except PyExn (List FillResult))
    (s : String) :
    fill_mask_stage (fun s k => Except.map (fun l => List.take 1 l) (f s k)) s
      = fill_mask_stage f s := by
  unfold fill_mask_stage
  cases h : f s 1 <;>
    simp [h, Except.map, Bind.bind, Except.bind, pyIndex_take_one]

/-- Step 2 only consumes the first element of the returned list. -/
theorem text_generation_stage_trunc (f : String → Nat → Nat → Bool → Except PyExn (List GenResult))
    (s : String) :
    text_generation_stage (fun s a b c => Except.map (fun l => List.take 1 l) (f s a b c)) s
      = text_generation_stage f s := by
  unfold text_generation_stage
  cases h : f s 100 1 true <;>
    simp [h, Except.map, Bind.bind, Except.bind, pyIndex_take_one]

/-- Step 3 only consumes the first element of the returned list. -/
theorem sentiment_stage_trunc (f : String → Except PyExn (List SentResult))
    (s : String) :
    sentiment_stage (fun s => Except.map (fun l => List.take 1 l) (f s)) s
      = sentiment_stage f s := by
  unfold sentiment_stage
  cases h : f s <;>
    simp [h, Except.map, Bind.bind, Except.bind, pyIndex_take_one]

/-- Step 4 only consumes the first element of the returned list. -/
theorem summarization_stage_trunc (f : String → Nat → Nat → Bool → Except PyExn (List SummaryResult))
    (s : String) :
    summarization_stage (fun s a b c => Except.map (fun l => List.take 1 l) (f s a b c)) s
      = summarization_stage f s := by
  unfold summarization_stage
  cases h : f s 100 10 false <;>
    simp [h, Except.map, Bind.bind, Except.bind, pyIndex_take_one]

/-- The whole chain is invariant under truncating every result list to its
first element: no element beyond index 0 is ever consumed. -/
theorem run_pipeline_trunc (m : Models) :
    run_pipeline (truncateModels m) = run_pipeline m := by
  unfold run_pipeline truncateModels
  simp only [fill_mask_stage_trunc, text_generation_stage_trunc, sentiment_stage_trunc,
    summarization_stage_trunc]

/-- When the launcher never raises IndexError, neither does the
question-generation stage. -/
theorem question_gen_no_index_error (launcher : String → Except PyExn CompletedProcess)
    (s : String) (h : ∀ i, launcher i ≠ Except.error PyExn.indexError) :
    (generate_question_with_instruction launcher s).result ≠ Except.error PyExn.indexError := by
  unfold generate_question_with_instruction subprocess_run_check
  dsimp only
  cases hl : launcher (instruction_for s) with
  | ok r =>
    by_cases hr : r.returncode = 0 <;> simp [hr]
  | error e =>
    cases e with
    | calledProcessError rc o st => simp
    | fileNotFoundError msg => simp
    | indexError => exact absurd hl (h (instruction_for s))
    | other msg => simp

/-- C10: under the precondition that every list-returning model call
succeeds with a non-empty list (and that the two remaining oracles do not
themselves raise IndexError), every index access of the chain is in
bounds — the run never raises IndexError — and only the first element of
each result list is ever consumed: truncating every list to its head
leaves the run unchanged. -/
theorem C10_first_element_only (m : Models)
    (h1 : ∀ s k, ∃ l, m.mask_filler s k = Except.ok l ∧ l ≠ [])
    (h2 : ∀ s a b c, ∃ l, m.text_generator s a b c = Except.ok l ∧ l ≠ [])
    (h3 : ∀ s, ∃ l, m.sentiment_analyzer s = Except.ok l ∧ l ≠ [])
    (h4 : ∀ s a b c, ∃ l, m.summarizer s a b c = Except.ok l ∧ l ≠ [])
    (h5 : ∀ s, m.ollama_launcher s ≠ Except.error PyExn.indexError)
    (h6 : ∀ q c, m.qa_pipeline q c ≠ Except.error PyExn.indexError) :
    run_pipeline m ≠ Except.error PyExn.indexError ∧
    (∀ text, ∃ r rs, m.summarizer text 100 10 false = Except.ok (r :: rs) ∧
        summarization_stage m.summarizer text = r.summary_text) ∧
    run_pipeline (truncateModels m) = run_pipeline m := by
  refine ⟨?_, ?_, run_pipeline_trunc m⟩
  case refine_2 =>
    intro text
    obtain ⟨l4, hl4, hne4⟩ := h4 text 100 10 false
    cases l4 with
    | nil => exact absurd rfl hne4
    | cons r rs =>
      exact ⟨r, rs, hl4, summarization_stage_ok m.summarizer text r rs hl4⟩
  obtain ⟨l1, hl1, hne1⟩ := h1 masked_sentence 1
  cases l1 with
  | nil => exact absurd rfl hne1
  | cons fr frs =>
  obtain ⟨l2, hl2, hne2⟩ := h2 fr.sequence 100 1 true
  cases l2 with
  | nil => exact absurd rfl hne2
  | cons gr grs =>
  obtain ⟨l3, hl3, hne3⟩ := h3 gr.generated_text
  cases l3 with
  | nil => exact absurd rfl hne3
  | cons sr srs =>
  have e1 := fill_mask_stage_ok m.mask_filler masked_sentence fr frs hl1
  have e2 := text_generation_stage_ok m.text_generator fr.sequence gr grs hl2
  have e3 := sentiment_stage_ok m.sentiment_analyzer gr.generated_text sr srs hl3
  cases hq : (generate_question_with_instruction m.ollama_launcher
      (summarization_stage m.summarizer gr.generated_text)).result with
  | error e =>
    have hrun : run_pipeline m = Except.error e := by
      unfold run_pipeline
      rw [e1]
      show (text_generation_stage m.text_generator fr.sequence >>= _) = _
      rw [e2]
      show (sentiment_stage m.sentiment_analyzer gr.generated_text >>= _) = _
      rw [e3]
      show ((generate_question_with_instruction m.ollama_launcher
          (summarization_stage m.summarizer gr.generated_text)).result >>= _) = _
      rw [hq]
      rfl
    intro hc
    rw [hrun] at hc
    cases Except.error.inj hc
    exact question_gen_no_index_error m.ollama_launcher
      (summarization_stage m.summarizer gr.generated_text) h5 hq
  | ok q =>
    cases hqa : m.qa_pipeline q (summarization_stage m.summarizer gr.generated_text) with
    | error e' =>
      have hrun : run_pipeline m = Except.error e' := by
        unfold run_pipeline
        rw [e1]
        show (text_generation_stage m.text_generator fr.sequence >>= _) = _
        rw [e2]
        show (sentiment_stage m.sentiment_analyzer gr.generated_text >>= _) = _
        rw [e3]
        show ((generate_question_with_instruction m.ollama_launcher
            (summarization_stage m.summarizer gr.generated_text)).result >>= _) = _
        rw [hq]
        show (question_answering_stage m.qa_pipeline q
            (summarization_stage m.summarizer gr.generated_text) >>= _) = _
        rw [question_answering_stage_err m.qa_pipeline q
          (summarization_stage m.summarizer gr.generated_text) e' hqa]
        rfl
      intro hc
      rw [hrun] at hc
      cases Except.error.inj hc
      exact h6 q (summarization_stage m.summarizer gr.generated_text) hqa
    | ok qar =>
      have hrun : run_pipeline m = Except.ok
          { fill_input := masked_sentence
            unmasked_sentence := fr.sequence
            gen_input := fr.sequence
            generated_text := gr.generated_text
            sentiment_input := gr.generated_text
            sentiment := sr.label
            confidence := sr.score
            summarizer_input := gr.generated_text
            summary_text := summarization_stage m.summarizer gr.generated_text
            qg_input := summarization_stage m.summarizer gr.generated_text
            question := q
            qa_question := q
            qa_context := summarization_stage m.summarizer gr.generated_text
            answer := qar.answer
            ollama_launches := (generate_question_with_instruction m.ollama_launcher
              (summarization_stage m.summarizer gr.generated_text)).launches } := by
        unfold run_pipeline
        rw [e1]
        show (text_generation_stage m.text_generator fr.sequence >>= _) = _
        rw [e2]
        show (sentiment_stage m.sentiment_analyzer gr.generated_text >>= _) = _
        rw [e3]
        show ((generate_question_with_instruction m.ollama_launcher
            (summarization_stage m.summarizer gr.generated_text)).result >>= _) = _
        rw [hq]
        show (question_answering_stage m.qa_pipeline q
            (summarization_stage m.summarizer gr.generated_text) >>= _) = _
        unfold question_answering_stage
        rw [hqa]
        rfl
      intro hc
      rw [hrun] at hc
      exact Except.noConfusion hc

/-- Witness for C10: the demo stand-ins satisfy the precondition, the run
raises no IndexError, and truncating every result list to its head leaves
the run unchanged. -/
theorem C10_witness :
    run_pipeline demo_models ≠ Except.error PyExn.indexError ∧
    (∀ text, ∃ r rs, demo_models.summarizer text 100 10 false = Except.ok (r :: rs) ∧
        summarization_stage demo_models.summarizer text = r.summary_text) ∧
    run_pipeline (truncateModels demo_models) = run_pipeline demo_models :=
  C10_first_element_only demo_models
    (fun _ _ => ⟨[⟨"renewable energy reduces costs.", 1⟩], rfl, List.cons_ne_nil _ _⟩)
    (fun _ _ _ _ =>
      ⟨[⟨"renewable energy reduces costs. The policy shifted."⟩], rfl, List.cons_ne_nil _ _⟩)
    (fun _ => ⟨[⟨"POSITIVE", 1⟩], rfl, List.cons_ne_nil _ _⟩)
    (fun _ _ _ _ =>
      ⟨[⟨"The policy shifted because of renewable costs."⟩], rfl, List.cons_ne_nil _ _⟩)
    (fun _ hc => Except.noConfusion hc)
    (fun _ _ hc => Except.noConfusion hc)
